import Mathlib

/-
  Verification development for the base16-theme-switcher repository.

  The Python sources are shallowly embedded as executable Lean
  definitions: exceptions become an inductive type, stateful methods
  become explicit state-passing functions, and methods that may raise
  return Except values.  Exception constructors correspond to exact
  Python exception classes, so the identity check performed by
  ConfiguredAbsolutePath.__exit__ (exc_type is FileNotFoundError /
  exc_type is OSError) is the literal match on the constructor.
-/

/-- Python exceptions used by the program, one constructor per exact
exception class.  ConfigValueError is referenced by app.py and
plugin_loading.py but its definition is absent from the sources; it is
modelled from the spec (section 7) as a member of the setup-error
family. -/
inductive PyExc where
  | keyError (msg : String)
  | typeError (msg : String)
  | attributeError (msg : String)
  | setupError (msg : String)
  | configKeyError (msg : String)
  | configValueError (msg : String)
  | configuredPathError (msg : String)
  | configuredFileNotFoundError (msg : String)
  | invalidThemeError (theme : String) (descr : String) (colorName : String)
  | duplicateThemeNameError (msg : String)
  | osError (msg : String)
  | fileNotFoundError (msg : String)
  | permissionError (msg : String)
deriving DecidableEq, Repr

deriving instance DecidableEq for Except

/-- Whether the exception class is SetupError or one of its subclasses
(config_structures.py lines 11-29; ConfigValueError modelled from the
spec as part of the same family). -/
def isSetupExc : PyExc → Bool
  | PyExc.setupError _ => true
  | PyExc.configKeyError _ => true
  | PyExc.configValueError _ => true
  | PyExc.configuredPathError _ => true
  | PyExc.configuredFileNotFoundError _ => true
  | _ => false

/-- Whether the exception is a raw OS-level exception (OSError,
FileNotFoundError, PermissionError), as opposed to a domain error of
the application. -/
def isRawOSExc : PyExc → Bool
  | PyExc.osError _ => true
  | PyExc.fileNotFoundError _ => true
  | PyExc.permissionError _ => true
  | _ => false

/-- Lookup in a Python dict represented as an association list with
unique keys (first match). -/
def dictFind {α : Type} : List (String × α) → String → Option α
  | [], _ => none
  | p :: rest, k => if p.1 == k then some p.2 else dictFind rest k

/-- Python dict insertion d[k] = v: overwrite in place if the key
exists, else append. -/
def pyDictInsert {α : Type} (d : List (String × α)) (k : String) (v : α) :
    List (String × α) :=
  if d.any (fun p => p.1 == k) then
    d.map (fun p => if p.1 == k then (k, v) else p)
  else d ++ [(k, v)]

/-- Python dict built from a list of pairs (later pairs overwrite
earlier ones), as in dict(findall-result). -/
def pyDict {α : Type} (ps : List (String × α)) : List (String × α) :=
  ps.foldl (fun d p => pyDictInsert d p.1 p.2) []

/-- Python str.isspace for the ASCII whitespace characters relevant to
the regular expression class backslash-S. -/
def isPyWhitespace (c : Char) : Bool :=
  c = ' ' || c = '\t' || c = '\n' || c = '\r' || c = '\x0b' || c = '\x0c'

/-- Strip a literal pattern from the front of the character list,
returning the remainder on success. -/
def stripLit : List Char → List Char → Option (List Char)
  | [], l => some l
  | _, [] => none
  | p :: ps, c :: cs => if c = p then stripLit ps cs else none

/-- Attempted regular-expression match of the pattern
`#define (\S+) (\S+)` (themes.py line 56) at the head of the list.
On success returns the two captured groups and the remainder of the
input after the match. -/
def matchDefineAt (l : List Char) : Option (String × String × List Char) :=
  match stripLit ("#define ").data l with
  | none => none
  | some r =>
    if (r.takeWhile (fun c => !isPyWhitespace c)).isEmpty then none
    else
      match r.dropWhile (fun c => !isPyWhitespace c) with
      | ' ' :: r2 =>
        if (r2.takeWhile (fun c => !isPyWhitespace c)).isEmpty then none
        else some (String.mk (r.takeWhile (fun c => !isPyWhitespace c)),
                   String.mk (r2.takeWhile (fun c => !isPyWhitespace c)),
                   r2.dropWhile (fun c => !isPyWhitespace c))
      | _ => none

/-- re.findall scanning: try to match at each position, and continue
after the end of each non-overlapping match.  Every step consumes at
least one character, so fuel equal to the input length suffices. -/
def findallDefineFuel : Nat → List Char → List (String × String)
  | 0, _ => []
  | Nat.succ fuel, l =>
    match l with
    | [] => []
    | c :: rest =>
      match matchDefineAt (c :: rest) with
      | some (n, v, r3) => (n, v) :: findallDefineFuel fuel r3
      | none => findallDefineFuel fuel rest

/-- `_DEF_PATTERN.findall(text)` from themes.py line 84. -/
def findallDefine (s : String) : List (String × String) :=
  findallDefineFuel s.data.length s.data

/-- `dict(self._DEF_PATTERN.findall(self.path.read_text()))`
(themes.py lines 83-85): the parsed definitions of a theme file. -/
def themeDefinitionsOf (content : String) : List (String × String) :=
  pyDict (findallDefine content)

/-- The sixteen canonical base16 color names,
`['base0' + c for c in (digits + ascii_uppercase)[:16]]`
(themes.py line 62). -/
def EXPECTED_COLORS : List String :=
  ((("0123456789").data ++ ("ABCDEFGHIJKLMNOPQRSTUVWXYZ").data).take 16).map
    (fun c => ("base0").push c)

/-- An ASCII hexadecimal digit, the character class `[0-9a-fA-F]`. -/
def isHexDigitChar (c : Char) : Bool :=
  ('0' ≤ c && c ≤ '9') || ('a' ≤ c && c ≤ 'f') || ('A' ≤ c && c ≤ 'F')

/-- `_VAL_PATTERN.match(value)` (themes.py lines 59, 110): re.match
anchors at the start only, so the pattern `\#[0-9a-fA-F]{6}` accepts
any string that BEGINS with a hash sign and six hexadecimal digits,
trailing characters included. -/
def valPatternMatch (s : String) : Bool :=
  match s.data with
  | '#' :: c1 :: c2 :: c3 :: c4 :: c5 :: c6 :: _ =>
    isHexDigitChar c1 && isHexDigitChar c2 && isHexDigitChar c3 &&
      isHexDigitChar c4 && isHexDigitChar c5 && isHexDigitChar c6
  | _ => false

/-- The predicate of the specification: the value is exactly a 6-digit
hexadecimal color of the form #RRGGBB (case-insensitive), nothing
following. -/
def specIsHexColorRRGGBB (s : String) : Bool :=
  match s.data with
  | ['#', c1, c2, c3, c4, c5, c6] =>
    isHexDigitChar c1 && isHexDigitChar c2 && isHexDigitChar c3 &&
      isHexDigitChar c4 && isHexDigitChar c5 && isHexDigitChar c6
  | _ => false

/-- `Base16Theme.__getitem__` (themes.py lines 88-113) on a theme whose
file has the given content: reject non-canonical names with KeyError,
then look the name up in the parsed definitions (missing gives
InvalidThemeError "missing"), then check the value against
_VAL_PATTERN (failure gives InvalidThemeError "invalid"). -/
def base16GetItem (pth content name : String) : Except PyExc String :=
  if !(EXPECTED_COLORS.contains name) then
    Except.error (PyExc.keyError (("An unsupported color was requested: ") ++ name))
  else
    match dictFind (themeDefinitionsOf content) name with
    | none => Except.error (PyExc.invalidThemeError pth ("missing") name)
    | some value =>
      if !(valPatternMatch value) then
        Except.error (PyExc.invalidThemeError pth ("invalid") name)
      else Except.ok value

/-- The mutable parsing state of a Base16Theme: the `_definitions`
cache, initialised to the empty dict by `__init__` (themes.py line
73). -/
structure ThemeParseState where
  definitionsCache : List (String × String)
deriving DecidableEq, Repr

/-- The state of a freshly constructed Base16Theme: construction only
stores the path and derives the name, it performs no parsing and no
file read. -/
def themeInitState : ThemeParseState := ThemeParseState.mk []

/-- The `definitions` property (themes.py lines 75-86): if the cache is
falsy (the empty dict) the file is read and parsed and the result
cached, otherwise the cache is returned.  The result triple is the
returned definitions, the new state, and whether the file was read. -/
def definitionsProperty (content : String) (st : ThemeParseState) :
    List (String × String) × ThemeParseState × Bool :=
  if st.definitionsCache.isEmpty then
    (themeDefinitionsOf content, ThemeParseState.mk (themeDefinitionsOf content), true)
  else (st.definitionsCache, st, false)

/-- Stateful `Base16Theme.__getitem__`: like base16GetItem but
threading the parse cache, recording whether the call read the theme
file.  Non-canonical names are rejected before the definitions
property is touched, so they never trigger a read. -/
def base16GetItemSt (pth content name : String) (st : ThemeParseState) :
    Except PyExc String × ThemeParseState × Bool :=
  if !(EXPECTED_COLORS.contains name) then
    (Except.error (PyExc.keyError (("An unsupported color was requested: ") ++ name)),
     st, false)
  else
    match definitionsProperty content st with
    | (defs, st2, didRead) =>
      match dictFind defs name with
      | none => (Except.error (PyExc.invalidThemeError pth ("missing") name), st2, didRead)
      | some value =>
        if !(valPatternMatch value) then
          (Except.error (PyExc.invalidThemeError pth ("invalid") name), st2, didRead)
        else (Except.ok value, st2, didRead)

/-- `ConfiguredAbsolutePath.__exit__` (config_structures.py lines
159-173): the exception propagating out of the with-block.  Python
compares the exception type with `is`, an identity check on the exact
class, so subclasses of OSError other than FileNotFoundError itself
(PermissionError among them) fall through both branches and propagate
unchanged. -/
def contextManagerExit (e : PyExc) : PyExc :=
  match e with
  | PyExc.fileNotFoundError m => PyExc.configuredFileNotFoundError m
  | PyExc.osError m => PyExc.configuredPathError m
  | e2 => e2

/-- The target file of a configured path: whether it exists and the
mapping stored in it. -/
structure FileState where
  fileExists : Bool
  content : List (String × String)
deriving DecidableEq, Repr

/-- The lazy-write decision of `LazilySaveablePath.write`
(config_structures.py lines 241-265) without OS faults: if the data is
empty and the file does not exist, nothing is written; otherwise the
data is persisted.  The Bool records whether a write was performed. -/
def lazyWrite (data : List (String × String)) (fs : FileState) : FileState × Bool :=
  if data.isEmpty && !fs.fileExists then (fs, false)
  else (FileState.mk true data, true)

/-- `LazilySaveablePath.read` (config_structures.py lines 208-231):
the underlying `_do_read` raises FileNotFoundError when the file is
absent, or an injected OS fault; the exception is translated by the
with-block (contextManagerExit), and a translated
ConfiguredFileNotFoundError is converted to the empty value when
fallback_to_empty is set. -/
def pathRead (fs : FileState) (osFault : Option PyExc) (fallbackToEmpty : Bool) :
    Except PyExc (List (String × String)) :=
  match osFault with
  | some e =>
    match contextManagerExit e with
    | PyExc.configuredFileNotFoundError m =>
      if fallbackToEmpty then Except.ok []
      else Except.error (PyExc.configuredFileNotFoundError m)
    | e2 => Except.error e2
  | none =>
    if fs.fileExists then Except.ok fs.content
    else if fallbackToEmpty then Except.ok []
    else Except.error (PyExc.configuredFileNotFoundError ("No such file or directory"))

/-- `LazilySaveablePath.write` (config_structures.py lines 241-265)
with a possible OS fault from `_do_write`: the lazy-write guard first,
then translation by the with-block, and a translated
ConfiguredFileNotFoundError is re-raised with a message about the
missing parent directory. -/
def pathWrite (data : List (String × String)) (fs : FileState) (osFault : Option PyExc) :
    Except PyExc (FileState × Bool) :=
  if data.isEmpty && !fs.fileExists then Except.ok (fs, false)
  else
    match osFault with
    | none => Except.ok (FileState.mk true data, true)
    | some e =>
      match contextManagerExit e with
      | PyExc.configuredFileNotFoundError _ =>
        Except.error (PyExc.configuredFileNotFoundError ("Parent dir missing for file"))
      | e2 => Except.error e2

/-- A node of the configuration tree: a scalar option value or a
nested section. -/
inductive ConfigNode where
  | scalar (v : String)
  | sect (entries : List (String × ConfigNode))

/-- A ConfigMapping view (config_structures.py lines 32-49): the
underlying data together with the ancestor chain used to locate it. -/
structure ConfigView where
  data : List (String × ConfigNode)
  ancestors : List String

/-- Python `':'.join(...)` over the ancestor chain. -/
def joinColon : List String → String
  | [] => ""
  | [a] => a
  | a :: b :: rest => a ++ (":") ++ joinColon (b :: rest)

/-- The ConfigKeyError message of `ConfigMapping.__getitem__`
(config_structures.py lines 65-68). -/
def missingKeyMsg (key : String) (ancestors : List String) : String :=
  ("A requested configuration option \"") ++ key ++ ("\" is missing in ")
    ++ joinColon ancestors

/-- The result of ConfigMapping.__getitem__: a scalar option value, or
a subsection wrapped in a new view. -/
inductive ConfigGetResult where
  | value (v : String)
  | sub (m : ConfigView)

/-- `ConfigMapping.__getitem__` (config_structures.py lines 51-73):
missing keys raise ConfigKeyError carrying the key and the joined
ancestor chain; nested mappings are wrapped in a new view whose
ancestor chain is extended by the key; scalars are returned as is. -/
def configGetItem (m : ConfigView) (key : String) : Except PyExc ConfigGetResult :=
  match dictFind m.data key with
  | none => Except.error (PyExc.configKeyError (missingKeyMsg key m.ancestors))
  | some (ConfigNode.scalar v) => Except.ok (ConfigGetResult.value v)
  | some (ConfigNode.sect es) =>
    Except.ok (ConfigGetResult.sub (ConfigView.mk es (m.ancestors ++ [key])))

/-- Iterated reads through nested sections: the view reached after
successfully reading every key of the chain through section nodes. -/
def configChainSections (m : ConfigView) : List String → Option ConfigView
  | [] => some m
  | k :: rest =>
    match configGetItem m k with
    | Except.ok (ConfigGetResult.sub m2) => configChainSections m2 rest
    | _ => none

/-- A theme as seen by the collection and the switcher: its name
(derived from the file base name) and its path (its string
representation, used by the merge command). -/
structure ThemeH where
  name : String
  path : String
deriving DecidableEq, Repr

/-- The DuplicateThemeNameError message (themes.py lines 180-182). -/
def dupMsg (n : String) : String :=
  ("A theme named \"") ++ n ++ ("\" already exists.")

/-- Whether the collection already holds a theme with the name. -/
def containsName (m : List (String × ThemeH)) (n : String) : Bool :=
  m.any (fun p => p.1 == n)

/-- `Base16ThemeNameMap.add` (themes.py lines 170-183): reject a
duplicate name, else insert the theme under its name. -/
def themeMapAdd (m : List (String × ThemeH)) (t : ThemeH) :
    Except PyExc (List (String × ThemeH)) :=
  if containsName m t.name then
    Except.error (PyExc.duplicateThemeNameError (dupMsg t.name))
  else Except.ok (m ++ [(t.name, t)])

/-- `Base16ThemeNameMap.__init__` (themes.py lines 141-150): add every
theme in order, propagating the first duplicate error. -/
def themeMapInitAux : List ThemeH → List (String × ThemeH) →
    Except PyExc (List (String × ThemeH))
  | [], acc => Except.ok acc
  | t :: rest, acc =>
    match themeMapAdd acc t with
    | Except.error e => Except.error e
    | Except.ok acc2 => themeMapInitAux rest acc2

/-- The strict constructor over a sequence of themes. -/
def themeMapInit (ts : List ThemeH) : Except PyExc (List (String × ThemeH)) :=
  themeMapInitAux ts []

/-- `Base16ThemeNameMap.from_unique` (themes.py lines 200-219): add
every theme in order, logging and skipping the ones whose add raises
DuplicateThemeNameError. -/
def fromUniqueAux : List ThemeH → List (String × ThemeH) → List (String × ThemeH)
  | [], acc => acc
  | t :: rest, acc =>
    match themeMapAdd acc t with
    | Except.error _ => fromUniqueAux rest acc
    | Except.ok acc2 => fromUniqueAux rest acc2

/-- The bulk unique-from constructor. -/
def fromUnique (ts : List ThemeH) : List (String × ThemeH) :=
  fromUniqueAux ts []

/-- The names of a sequence of themes, in order. -/
def namesOf (ts : List ThemeH) : List String := ts.map (fun t => t.name)

/-- A Python class as relevant to the ThemeApplier capability check:
the attribute names of the `__dict__` of every class of its method
resolution order, whether it actually subclasses ThemeApplier, and
whether it was explicitly registered with the ThemeApplier ABC. -/
structure PyClass where
  attrDicts : List (List String)
  inheritsThemeApplier : Bool
  registeredWithThemeApplier : Bool
deriving DecidableEq, Repr

/-- `ThemeApplier.__subclasshook__` (app.py lines 29-34): True when
some class of the MRO defines an `apply` attribute, NotImplemented
(none) otherwise. -/
def themeApplierSubclasshook (c : PyClass) : Option Bool :=
  if c.attrDicts.any (fun d => d.contains ("apply")) then some true else none

/-- `isinstance(obj, ThemeApplier)` under the ABC machinery: the hook
answer when it gives one, else the default check on actual subclassing
or registration. -/
def isinstanceThemeApplier (c : PyClass) : Bool :=
  match themeApplierSubclasshook c with
  | some b => b
  | none => c.inheritsThemeApplier || c.registeredWithThemeApplier

/-- The TypeError message of add_theme_applier (app.py lines 73-76),
with the object and class representations elided. -/
def typeErrMsg : String := "is not an instance of ThemeApplier"

/-- The applier-related state of a ThemeSwitcherBuilder.
`themeAppliers` is the `_theme_appliers` list assigned by `__init__`
(app.py line 57); `components` is the `_components` attribute used by
`add_theme_applier` and `build` (app.py lines 77 and 108), which no
method ever assigns, hence an Option that `__init__` leaves none. -/
structure Builder where
  themeAppliers : List PyClass
  components : Option (List PyClass)
deriving DecidableEq, Repr

/-- The builder state right after `__init__` (app.py lines 46-58). -/
def builderInit : Builder := Builder.mk [] none

/-- `ThemeSwitcherBuilder.add_theme_applier` (app.py lines 65-77):
TypeError when the argument fails the ThemeApplier instance check;
otherwise `self._components.append(...)`, which raises AttributeError
whenever `_components` is unset. -/
def addThemeApplier (b : Builder) (applier : PyClass) : Except PyExc Builder :=
  if !(isinstanceThemeApplier applier) then
    Except.error (PyExc.typeError typeErrMsg)
  else
    match b.components with
    | none => Except.error (PyExc.attributeError ("_components"))
    | some l => Except.ok (Builder.mk b.themeAppliers (some (l ++ [applier])))

/-- `ThemeSwitcherBuilder.build` (app.py lines 100-110), restricted to
the applier list it hands to the ThemeSwitcher: evaluating
`self._components` raises AttributeError whenever it is unset. -/
def builderBuild (b : Builder) : Except PyExc (List PyClass) :=
  match b.components with
  | none => Except.error (PyExc.attributeError ("_components"))
  | some l => Except.ok l

/-- The ConfigValueError message for an unavailable plugin
(plugin_loading.py lines 61-63). -/
def unavailableMsg (n : String) : String :=
  ("The \"") ++ n ++ ("\" plugin is configured but not available.")

/-- The SetupError message wrapping a plugin setup failure
(plugin_loading.py lines 67-69). -/
def setupWrapMsg (n : String) : String :=
  ("Error while setting up \"") ++ n ++ ("\" plugin.")

/-- `apply_configured_plugins` (plugin_loading.py lines 38-70) over
the configured plugin names in configuration order.  Each available
plugin is modelled by the outcome of calling its `apply_to` entry
point on the builder.  On success the result is the ordered list of
plugin names that were invoked; on failure it is the raised exception
together with the names invoked before (and including, when the
plugin itself raised) the failure.  A SetupError raised by a plugin
(isSetupExc, matching `except SetupError`) is re-raised wrapped with
the plugin name; other exceptions propagate unchanged. -/
def applyConfiguredPlugins : List String → List (String × Except PyExc Unit) →
    Except (PyExc × List String) (List String)
  | [], _ => Except.ok []
  | n :: rest, avail =>
    match dictFind avail n with
    | none => Except.error (PyExc.configValueError (unavailableMsg n), [])
    | some (Except.error e) =>
      if isSetupExc e then
        Except.error (PyExc.setupError (setupWrapMsg n), [n])
      else Except.error (e, [n])
    | some (Except.ok _) =>
      match applyConfiguredPlugins rest avail with
      | Except.error (e, tr) => Except.error (e, n :: tr)
      | Except.ok tr => Except.ok (n :: tr)

/-- The `plugins` entry of the configuration: either a mapping whose
iteration order yields the plugin names, or a value of another shape
(plugin_loading.py lines 52-54 reject the latter). -/
inductive PluginsConfigValue where
  | mapping (names : List String)
  | nonMapping

/-- `apply_configured_plugins` including the leading format check on
the `plugins` configuration value. -/
def applyConfiguredPluginsFromConfig (pc : PluginsConfigValue)
    (avail : List (String × Except PyExc Unit)) :
    Except (PyExc × List String) (List String) :=
  match pc with
  | PluginsConfigValue.nonMapping =>
    Except.error (PyExc.configValueError ("Invalid plugin configuration format."), [])
  | PluginsConfigValue.mapping names => applyConfiguredPlugins names avail

/-- Prepend an invoked plugin name to the invocation trace of an
activation outcome. -/
def prependName (n : String) :
    Except (PyExc × List String) (List String) →
    Except (PyExc × List String) (List String)
  | Except.error (e, tr) => Except.error (e, n :: tr)
  | Except.ok tr => Except.ok (n :: tr)

/-- Observable events of the theme-switch write operation, in the
order they are performed. -/
inductive SwitchEvent where
  | mergeCmd (themePath : String)
  | applierApplied (themePath : String)
  | configSet (name : String)
  | saved
deriving DecidableEq, Repr

/-- The state touched by ThemeSwitcher.current_theme_name: the config
mapping data, the persisted config file, and the event trace. -/
structure SwitcherState where
  config : List (String × String)
  persisted : FileState
  trace : List SwitchEvent
deriving DecidableEq, Repr

/-- The applier loop of `ThemeSwitcher._apply` (app.py lines 169-170):
call `apply` on every applier in order with the theme; a raising
applier aborts the loop.  The event list records the completed
applications; on failure the events before the raising call are
returned with the exception. -/
def runAppliers : List (ThemeH → Except PyExc Unit) → ThemeH →
    Except (PyExc × List SwitchEvent) (List SwitchEvent)
  | [], _ => Except.ok []
  | a :: rest, t =>
    match a t with
    | Except.error e => Except.error (e, [])
    | Except.ok _ =>
      match runAppliers rest t with
      | Except.error (e, evs) =>
        Except.error (e, SwitchEvent.applierApplied t.path :: evs)
      | Except.ok evs => Except.ok (SwitchEvent.applierApplied t.path :: evs)

/-- The `current_theme_name` setter (app.py lines 180-195): `_apply`
(theme lookup raising KeyError when absent, the xrdb merge command,
then every applier), then `self._config[theme] = theme_name`, then
`self._config.save()` which persists the data through the lazy write.
An exception carries the state at the moment it was raised, so the
effect of the statements already executed stays visible. -/
def setCurrentThemeName (themes : List (String × ThemeH))
    (appliers : List (ThemeH → Except PyExc Unit)) (name : String)
    (s : SwitcherState) : Except (PyExc × SwitcherState) SwitcherState :=
  match dictFind themes name with
  | none => Except.error (PyExc.keyError name, s)
  | some t =>
    match runAppliers appliers t with
    | Except.error (e, evs) =>
      Except.error (e, SwitcherState.mk s.config s.persisted
        (s.trace ++ SwitchEvent.mergeCmd t.path :: evs))
    | Except.ok evs =>
      let cfg2 := pyDictInsert s.config ("theme") name
      Except.ok (SwitcherState.mk cfg2 (lazyWrite cfg2 s.persisted).1
        (s.trace ++ SwitchEvent.mergeCmd t.path ::
          (evs ++ [SwitchEvent.configSet name, SwitchEvent.saved])))

theorem string_data_append (s t : String) : (s ++ t).data = s.data ++ t.data := by
  cases s
  cases t
  rfl

/-- Claim C7: write(data) performs a write exactly when data is
non-empty or the target file already exists; writing non-empty data
then reading back yields the same structure; writing empty data with
no existing file is a no-op; writing empty data onto an existing file
still writes. -/
theorem lazy_write_spec (d : List (String × String)) (fs : FileState) (fb : Bool) :
    ((lazyWrite d fs).2 = true ↔ (d ≠ [] ∨ fs.fileExists = true)) ∧
    (d ≠ [] → pathRead (lazyWrite d fs).1 none fb = Except.ok d) ∧
    (d = [] ∧ fs.fileExists = false → lazyWrite d fs = (fs, false)) ∧
    (fs.fileExists = true → (lazyWrite [] fs).2 = true) := by
  obtain ⟨ex, cont⟩ := fs
  refine ⟨?_, ?_, ?_, ?_⟩ <;> cases d <;> cases ex <;> simp [lazyWrite, pathRead]

/-- Witness for lazy_write_spec: a non-empty write to a fresh path
reads back as the written data. -/
theorem lazy_write_spec_witness :
    pathRead (lazyWrite [("a", "b")] (FileState.mk false [])).1 none false
      = Except.ok [("a", "b")] :=
  (lazy_write_spec [("a", "b")] (FileState.mk false []) false).2.1 (by decide)

/-- Claim C3 (code bug): a missing file is translated to the domain
file-not-found error and an exact OSError to the domain configured-path
error, but an OSError subclass such as PermissionError crosses the path
boundary untranslated, because __exit__ compares exception types with
the identity check `is`. -/
theorem configured_path_error_translation_bug :
    pathRead (FileState.mk false []) none false
      = Except.error (PyExc.configuredFileNotFoundError ("No such file or directory")) ∧
    pathRead (FileState.mk false []) none true = Except.ok [] ∧
    pathRead (FileState.mk true [("k", "v")]) (some (PyExc.osError ("fault"))) false
      = Except.error (PyExc.configuredPathError ("fault")) ∧
    pathWrite [("k", "v")] (FileState.mk false [])
        (some (PyExc.fileNotFoundError ("missing parent")))
      = Except.error (PyExc.configuredFileNotFoundError ("Parent dir missing for file")) ∧
    pathRead (FileState.mk true [("k", "v")]) (some (PyExc.permissionError ("denied"))) false
      = Except.error (PyExc.permissionError ("denied")) ∧
    isRawOSExc (PyExc.permissionError ("denied")) = true ∧
    pathWrite [("k", "v")] (FileState.mk true [("k", "v")])
        (some (PyExc.permissionError ("denied")))
      = Except.error (PyExc.permissionError ("denied")) :=
  ⟨rfl, rfl, rfl, rfl, rfl, rfl, rfl⟩

/-- Claim C4 (code bug): an object whose class hierarchy defines apply
passes the instance check, yet add_theme_applier raises AttributeError
instead of appending, and build raises AttributeError as well, because
both read self._components while __init__ only ever assigns
self._theme_appliers; the TypeError branch for incapable objects is
reached as documented. -/
theorem add_theme_applier_components_bug :
    isinstanceThemeApplier (PyClass.mk [["apply"]] false false) = true ∧
    addThemeApplier builderInit (PyClass.mk [["apply"]] false false)
      = Except.error (PyExc.attributeError ("_components")) ∧
    builderBuild builderInit = Except.error (PyExc.attributeError ("_components")) ∧
    addThemeApplier builderInit (PyClass.mk [["color"]] false false)
      = Except.error (PyExc.typeError typeErrMsg) ∧
    builderInit.themeAppliers = [] :=
  ⟨rfl, rfl, rfl, rfl, rfl⟩

/-- Counterexample to claim C2 as stated: base01 defined as #ABCDEF00
is not a 6-digit color of the form #RRGGBB, yet lookup does not raise
the invalid-theme error; it returns the value, because _VAL_PATTERN is
applied with re.match, which only anchors at the start. -/
theorem base16_getitem_rrggbb_counterexample :
    EXPECTED_COLORS.contains ("base01") = true ∧
    dictFind (themeDefinitionsOf ("#define base01 #ABCDEF00")) ("base01")
      = some ("#ABCDEF00") ∧
    specIsHexColorRRGGBB ("#ABCDEF00") = false ∧
    base16GetItem ("p") ("#define base01 #ABCDEF00") ("base01")
      = Except.ok ("#ABCDEF00") ∧
    ¬ (∃ pth descr cn, base16GetItem ("p") ("#define base01 #ABCDEF00") ("base01")
        = Except.error (PyExc.invalidThemeError pth descr cn)) := by
  refine ⟨rfl, rfl, rfl, rfl, ?_⟩
  intro h
  obtain ⟨pth, descr, cn, h⟩ := h
  exact Except.noConfusion
    ((show base16GetItem ("p") ("#define base01 #ABCDEF00") ("base01")
        = Except.ok ("#ABCDEF00") from rfl).symm.trans h)

/-- Claim C2 as amended: lookup of a non-canonical name raises
KeyError even when defined; a canonical undefined name raises the
invalid-theme error with descriptor missing; a canonical defined name
raises the invalid-theme error with descriptor invalid exactly when
the value does not BEGIN with a hash sign and six hexadecimal digits
(the amendment: re.match only anchors at the start, so values of the
exact form #RRGGBB are accepted along with any string extending one);
otherwise the defined value is returned, as in the base01 example. -/
theorem base16_getitem_amended_spec (pth content name : String) :
    (EXPECTED_COLORS.contains name = false →
      base16GetItem pth content name
        = Except.error (PyExc.keyError (("An unsupported color was requested: ") ++ name))) ∧
    (EXPECTED_COLORS.contains name = true →
      dictFind (themeDefinitionsOf content) name = none →
      base16GetItem pth content name
        = Except.error (PyExc.invalidThemeError pth ("missing") name)) ∧
    (∀ v, EXPECTED_COLORS.contains name = true →
      dictFind (themeDefinitionsOf content) name = some v →
      valPatternMatch v = false →
      base16GetItem pth content name
        = Except.error (PyExc.invalidThemeError pth ("invalid") name)) ∧
    (∀ v, EXPECTED_COLORS.contains name = true →
      dictFind (themeDefinitionsOf content) name = some v →
      valPatternMatch v = true →
      base16GetItem pth content name = Except.ok v) ∧
    (∀ v, specIsHexColorRRGGBB v = true → valPatternMatch v = true) ∧
    base16GetItem ("p") ("#define base01 #ABCDEF") ("base01") = Except.ok ("#ABCDEF") := by
  refine ⟨?_, ?_, ?_, ?_, ?_, rfl⟩
  · intro h
    simp only [List.elem_eq_mem, decide_eq_false_iff_not] at h
    simp [base16GetItem, h]
  · intro h1 h2
    simp only [List.elem_eq_mem, decide_eq_true_eq] at h1
    simp [base16GetItem, h1, h2]
  · intro v h1 h2 h3
    simp only [List.elem_eq_mem, decide_eq_true_eq] at h1
    simp [base16GetItem, h1, h2, h3]
  · intro v h1 h2 h3
    simp only [List.elem_eq_mem, decide_eq_true_eq] at h1
    simp [base16GetItem, h1, h2, h3]
  · intro v h
    unfold specIsHexColorRRGGBB at h
    unfold valPatternMatch
    split at h
    next c1 c2 c3 c4 c5 c6 heq =>
      rw [heq]
      exact h
    next =>
      exact absurd h (by simp)

/-- Witness for base16_getitem_amended_spec: a non-canonical name is
rejected with KeyError. -/
theorem base16_getitem_amended_spec_witness :
    base16GetItem ("p") ("#define baseFF #ABCDEF") ("baseFF")
      = Except.error (PyExc.keyError (("An unsupported color was requested: ") ++ ("baseFF"))) :=
  (base16_getitem_amended_spec ("p") ("#define baseFF #ABCDEF") ("baseFF")).1 rfl

/-- Counterexample to claim C9 as stated: on a theme file whose parse
yields no definitions, the cache stays falsy and the file is re-read
and re-parsed on the second access and on every later color request,
so parsing does not happen at most once. -/
theorem theme_reparse_counterexample :
    (definitionsProperty ("") themeInitState).2.2 = true ∧
    (definitionsProperty ("") (definitionsProperty ("") themeInitState).2.1).2.2 = true ∧
    (base16GetItemSt ("p") ("") ("base00") themeInitState).2.2 = true ∧
    (base16GetItemSt ("p") ("") ("base00")
        (base16GetItemSt ("p") ("") ("base00") themeInitState).2.1).2.2 = true :=
  ⟨rfl, rfl, rfl, rfl⟩

/-- Claim C9 as amended: construction performs no parsing; the first
color access parses the file; and PROVIDED the parse yields at least
one definition, the definitions map is cached and immutable — every
later access (any color request, whatever the file would now contain)
returns the same cached definitions without reading the file again.
The amendment restricts at-most-once parsing to themes whose parse is
non-empty, which the counterexample shows is necessary. -/
theorem theme_lazy_parse_amended_spec (content : String)
    (h : themeDefinitionsOf content ≠ []) :
    themeInitState.definitionsCache = [] ∧
    definitionsProperty content themeInitState
      = (themeDefinitionsOf content, ThemeParseState.mk (themeDefinitionsOf content), true) ∧
    (∀ c2, definitionsProperty c2 (ThemeParseState.mk (themeDefinitionsOf content))
      = (themeDefinitionsOf content, ThemeParseState.mk (themeDefinitionsOf content), false)) ∧
    (∀ pth c2 name,
      (base16GetItemSt pth c2 name (ThemeParseState.mk (themeDefinitionsOf content))).2
        = (ThemeParseState.mk (themeDefinitionsOf content), false)) := by
  have hcache : ∀ c2 : String,
      definitionsProperty c2 (ThemeParseState.mk (themeDefinitionsOf content))
        = (themeDefinitionsOf content, ThemeParseState.mk (themeDefinitionsOf content), false) := by
    intro c2
    cases hl : themeDefinitionsOf content with
    | nil => exact absurd hl h
    | cons a as => simp [definitionsProperty, hl]
  refine ⟨rfl, rfl, hcache, ?_⟩
  intro pth c2 name
  cases hc : EXPECTED_COLORS.contains name with
  | false =>
    have hmem : ¬ (name ∈ EXPECTED_COLORS) := by simpa using hc
    simp [base16GetItemSt, hmem]
  | true =>
    have hmem : name ∈ EXPECTED_COLORS := by simpa using hc
    cases hd : dictFind (themeDefinitionsOf content) name with
    | none => simp [base16GetItemSt, hmem, hcache c2, hd]
    | some v =>
      cases hv : valPatternMatch v with
      | false => simp [base16GetItemSt, hmem, hcache c2, hd, hv]
      | true => simp [base16GetItemSt, hmem, hcache c2, hd, hv]

/-- Witness for theme_lazy_parse_amended_spec: after parsing a
one-definition theme file, a later access with different file content
returns the cached definitions without reading. -/
theorem theme_lazy_parse_amended_spec_witness :
    definitionsProperty ("x")
        (ThemeParseState.mk (themeDefinitionsOf ("#define base00 #000000")))
      = (themeDefinitionsOf ("#define base00 #000000"),
         ThemeParseState.mk (themeDefinitionsOf ("#define base00 #000000")), false) :=
  (theme_lazy_parse_amended_spec ("#define base00 #000000") (by decide)).2.2.1 ("x")

/-- Claim C10: under the program invariants that no class is
explicitly registered with the ThemeApplier ABC and that a class
actually subclassing ThemeApplier has apply in some MRO dict (the ABC
itself defines apply), the isinstance check accepts a class exactly
when some class of its MRO defines an apply attribute, and
add_theme_applier raises its TypeError precisely for the remaining
classes. -/
theorem theme_applier_capability_spec (c : PyClass) (b : Builder)
    (hreg : c.registeredWithThemeApplier = false)
    (hmro : c.inheritsThemeApplier = true →
      c.attrDicts.any (fun d => d.contains ("apply")) = true) :
    (isinstanceThemeApplier c = true
      ↔ c.attrDicts.any (fun d => d.contains ("apply")) = true) ∧
    (addThemeApplier b c = Except.error (PyExc.typeError typeErrMsg)
      ↔ c.attrDicts.any (fun d => d.contains ("apply")) = false) := by
  cases ha : c.attrDicts.any (fun d => d.contains ("apply")) with
  | true =>
    have hi : isinstanceThemeApplier c = true := by
      unfold isinstanceThemeApplier themeApplierSubclasshook
      rw [ha]
      simp
    refine ⟨⟨fun _ => rfl, fun _ => hi⟩, ?_, ?_⟩
    · intro hadd
      exfalso
      unfold addThemeApplier at hadd
      rw [hi] at hadd
      simp only [Bool.not_true] at hadd
      rw [if_neg Bool.false_ne_true] at hadd
      cases hb : b.components with
      | none =>
        rw [hb] at hadd
        exact PyExc.noConfusion (Except.error.inj hadd)
      | some l =>
        rw [hb] at hadd
        exact Except.noConfusion hadd
    · intro hfalse
      exact absurd hfalse (by simp)
  | false =>
    have hinh : c.inheritsThemeApplier = false := by
      cases hx : c.inheritsThemeApplier with
      | false => rfl
      | true =>
        exfalso
        have hcontra := hmro hx
        rw [ha] at hcontra
        exact Bool.false_ne_true hcontra
    have hi : isinstanceThemeApplier c = false := by
      unfold isinstanceThemeApplier themeApplierSubclasshook
      rw [ha, hinh, hreg]
      simp
    refine ⟨⟨?_, ?_⟩, ?_, ?_⟩
    · intro htr
      rw [hi] at htr
      exact htr
    · intro hx
      exact absurd hx Bool.false_ne_true
    · intro _
      rfl
    · intro _
      unfold addThemeApplier
      rw [hi]
      simp

/-- Witness for theme_applier_capability_spec: a class defining apply
passes the instance check; a class without apply gets the TypeError
from add_theme_applier. -/
theorem theme_applier_capability_spec_witness :
    isinstanceThemeApplier (PyClass.mk [["apply"]] false false) = true ∧
    addThemeApplier builderInit (PyClass.mk [["nothing"]] false false)
      = Except.error (PyExc.typeError typeErrMsg) := by
  constructor
  · exact (theme_applier_capability_spec (PyClass.mk [["apply"]] false false)
      builderInit rfl (fun _ => rfl)).1.mpr rfl
  · exact (theme_applier_capability_spec (PyClass.mk [["nothing"]] false false)
      builderInit rfl (fun hx => absurd hx Bool.false_ne_true)).2.mpr rfl

/-- Claim C5: activation reads the plugin names from the configuration
(a non-mapping value is rejected) and processes them in configuration
order; for available plugins A and B with configured list A then C,
the A entry point runs exactly once and then activation fails with the
config-value error naming C; an unavailable head name fails before any
invocation; a setup failure raised by an invoked plugin is re-raised
as a SetupError whose message carries the plugin name; a successful
head invocation prepends its name to the outcome of activating the
rest. -/
theorem apply_configured_plugins_spec (avail : List (String × Except PyExc Unit))
    (n : String) (rest : List String) :
    applyConfiguredPluginsFromConfig (PluginsConfigValue.mapping [("A"), ("C")])
        [(("A"), Except.ok ()), (("B"), Except.ok ())]
      = Except.error (PyExc.configValueError (unavailableMsg ("C")), [("A")]) ∧
    applyConfiguredPluginsFromConfig PluginsConfigValue.nonMapping avail
      = Except.error (PyExc.configValueError ("Invalid plugin configuration format."), []) ∧
    (dictFind avail n = none →
      applyConfiguredPlugins (n :: rest) avail
        = Except.error (PyExc.configValueError (unavailableMsg n), [])) ∧
    (∀ e, dictFind avail n = some (Except.error e) → isSetupExc e = true →
      applyConfiguredPlugins (n :: rest) avail
        = Except.error (PyExc.setupError (setupWrapMsg n), [n]) ∧
      n.data <:+: (setupWrapMsg n).data) ∧
    (dictFind avail n = some (Except.ok ()) →
      applyConfiguredPlugins (n :: rest) avail
        = prependName n (applyConfiguredPlugins rest avail)) := by
  refine ⟨rfl, rfl, ?_, ?_, ?_⟩
  · intro h
    simp [applyConfiguredPlugins, h]
  · intro e h hs
    refine ⟨by simp [applyConfiguredPlugins, h, hs], ?_⟩
    refine ⟨("Error while setting up \"").data, ("\" plugin.").data, ?_⟩
    simp [setupWrapMsg, string_data_append, List.append_assoc]
  · intro h
    simp only [applyConfiguredPlugins, h]
    cases hr : applyConfiguredPlugins rest avail with
    | error p => obtain ⟨e, tr⟩ := p; simp [prependName]
    | ok tr => simp [prependName]

/-- Witness for apply_configured_plugins_spec: an unavailable head
plugin name fails with the config-value error before any invocation. -/
theorem apply_configured_plugins_spec_witness :
    applyConfiguredPlugins [("miss")] []
      = Except.error (PyExc.configValueError (unavailableMsg ("miss")), []) :=
  (apply_configured_plugins_spec [] ("miss") []).2.2.1 rfl

theorem dictFind_map_overwrite {α : Type} (d : List (String × α)) (k : String) (v : α)
    (h : d.any (fun p => p.1 == k) = true) :
    dictFind (d.map (fun p => if p.1 == k then (k, v) else p)) k = some v := by
  induction d with
  | nil => simp at h
  | cons p rest ih =>
    cases hpk : (p.1 == k) with
    | true => simp [dictFind, hpk]
    | false =>
      simp only [List.any_cons, hpk, Bool.false_or] at h
      simp [dictFind, hpk]
      simpa using ih h

theorem dictFind_append_self {α : Type} (d : List (String × α)) (k : String) (v : α)
    (h : d.any (fun p => p.1 == k) = false) :
    dictFind (d ++ [(k, v)]) k = some v := by
  induction d with
  | nil => simp [dictFind]
  | cons p rest ih =>
    simp only [List.any_cons, Bool.or_eq_false_iff] at h
    simp [dictFind, h.1, ih h.2]

theorem dictFind_pyDictInsert_self {α : Type} (d : List (String × α)) (k : String) (v : α) :
    dictFind (pyDictInsert d k v) k = some v := by
  unfold pyDictInsert
  cases h : d.any (fun p => p.1 == k) with
  | true =>
    simp only [h, if_true]
    exact dictFind_map_overwrite d k v h
  | false =>
    simp only [h, Bool.false_eq_true, if_false]
    exact dictFind_append_self d k v h

theorem runAppliers_ok_replicate (l : List (ThemeH → Except PyExc Unit)) (t : ThemeH)
    (evs : List SwitchEvent) (h : runAppliers l t = Except.ok evs) :
    evs = List.replicate l.length (SwitchEvent.applierApplied t.path) := by
  induction l generalizing evs with
  | nil =>
    simp only [runAppliers, Except.ok.injEq] at h
    simp [← h]
  | cons a rest ih =>
    unfold runAppliers at h
    cases ha : a t with
    | error e =>
      rw [ha] at h
      exact Except.noConfusion h
    | ok u =>
      rw [ha] at h
      cases hr : runAppliers rest t with
      | error p =>
        rw [hr] at h
        exact Except.noConfusion h
      | ok evs2 =>
        rw [hr] at h
        injection h with h
        subst h
        simp [List.replicate_succ, ih evs2 hr]

/-- Claim C1: the theme-switch write operation looks the name up in
the theme collection (raising the lookup KeyError when absent), then
runs the external merge command, then every registered applier with
the theme; only on completion of all of these is the name written into
the config and the config persisted through save.  Any error outcome
(lookup failure or a raising applier) leaves both the config data and
the persisted file exactly as they were. -/
theorem theme_switch_write_spec (themes : List (String × ThemeH))
    (appliers : List (ThemeH → Except PyExc Unit)) (name : String) (s : SwitcherState) :
    (dictFind themes name = none →
      setCurrentThemeName themes appliers name s
        = Except.error (PyExc.keyError name, s)) ∧
    (∀ e s2, setCurrentThemeName themes appliers name s = Except.error (e, s2) →
      s2.config = s.config ∧ s2.persisted = s.persisted) ∧
    (∀ s2, setCurrentThemeName themes appliers name s = Except.ok s2 →
      ∃ t, dictFind themes name = some t ∧
        runAppliers appliers t
          = Except.ok (List.replicate appliers.length (SwitchEvent.applierApplied t.path)) ∧
        s2.config = pyDictInsert s.config ("theme") name ∧
        dictFind s2.config ("theme") = some name ∧
        s2.persisted = (lazyWrite s2.config s.persisted).1 ∧
        s2.trace = s.trace ++ [SwitchEvent.mergeCmd t.path]
          ++ List.replicate appliers.length (SwitchEvent.applierApplied t.path)
          ++ [SwitchEvent.configSet name, SwitchEvent.saved]) := by
  refine ⟨?_, ?_, ?_⟩
  · intro h
    simp [setCurrentThemeName, h]
  · intro e s2 h
    simp only [setCurrentThemeName] at h
    cases hd : dictFind themes name with
    | none =>
      simp only [hd] at h
      injection h with h
      injection h with h1 h2
      subst h2
      exact ⟨rfl, rfl⟩
    | some t =>
      simp only [hd] at h
      cases hr : runAppliers appliers t with
      | error p =>
        obtain ⟨e2, evs⟩ := p
        simp only [hr] at h
        injection h with h
        injection h with h1 h2
        subst h2
        exact ⟨rfl, rfl⟩
      | ok evs =>
        simp only [hr] at h
        exact Except.noConfusion h
  · intro s2 h
    simp only [setCurrentThemeName] at h
    cases hd : dictFind themes name with
    | none =>
      simp only [hd] at h
      exact Except.noConfusion h
    | some t =>
      simp only [hd] at h
      cases hr : runAppliers appliers t with
      | error p =>
        obtain ⟨e2, evs⟩ := p
        simp only [hr] at h
        exact Except.noConfusion h
      | ok evs =>
        simp only [hr] at h
        have hevs := runAppliers_ok_replicate appliers t evs hr
        subst hevs
        injection h with h
        subst h
        refine ⟨t, rfl, hr, rfl, dictFind_pyDictInsert_self s.config ("theme") name, rfl, ?_⟩
        simp

/-- Witness for theme_switch_write_spec: an unknown theme name fails
with the lookup KeyError and an applier failure leaves config and
persisted state untouched. -/
theorem theme_switch_write_spec_witness :
    setCurrentThemeName [] [] ("x") (SwitcherState.mk [] (FileState.mk false []) [])
      = Except.error (PyExc.keyError ("x"), SwitcherState.mk [] (FileState.mk false []) []) ∧
    ((SwitcherState.mk [] (FileState.mk false []) [SwitchEvent.mergeCmd ("p")]).config = [] ∧
     (SwitcherState.mk [] (FileState.mk false [])
        [SwitchEvent.mergeCmd ("p")]).persisted = FileState.mk false []) := by
  constructor
  · exact (theme_switch_write_spec [] [] ("x")
      (SwitcherState.mk [] (FileState.mk false []) [])).1 rfl
  · exact (theme_switch_write_spec [(("t"), ThemeH.mk ("t") ("p"))]
      [fun _ => Except.error (PyExc.setupError ("boom"))] ("t")
      (SwitcherState.mk [] (FileState.mk false []) [])).2.1
      (PyExc.setupError ("boom"))
      (SwitcherState.mk [] (FileState.mk false []) [SwitchEvent.mergeCmd ("p")]) rfl

theorem within_join_colon (anc : List String) (a : String) (ha : a ∈ anc) :
    a.data <:+: (joinColon anc).data := by
  induction anc with
  | nil => cases ha
  | cons x rest ih =>
    cases rest with
    | nil =>
      have hax : a = x := by simpa using ha
      subst hax
      exact ⟨[], [], by simp [joinColon]⟩
    | cons y rest2 =>
      rcases List.mem_cons.mp ha with h1 | h2
      · subst h1
        refine ⟨[], ((":") ++ joinColon (y :: rest2)).data, ?_⟩
        simp [joinColon, string_data_append, List.append_assoc]
      · obtain ⟨s, t, hst⟩ := ih h2
        refine ⟨(x ++ (":")).data ++ s, t, ?_⟩
        simp only [joinColon, string_data_append, List.append_assoc]
        rw [← hst]
        simp [List.append_assoc]

theorem key_within_missing_msg (key : String) (anc : List String) :
    key.data <:+: (missingKeyMsg key anc).data := by
  refine ⟨("A requested configuration option \"").data,
          ((("\" is missing in ") ++ joinColon anc)).data, ?_⟩
  simp [missingKeyMsg, string_data_append, List.append_assoc]

theorem join_within_missing_msg (key : String) (anc : List String) :
    (joinColon anc).data <:+: (missingKeyMsg key anc).data := by
  refine ⟨((("A requested configuration option \"") ++ key) ++ ("\" is missing in ")).data,
          [], ?_⟩
  simp [missingKeyMsg, string_data_append, List.append_assoc]

theorem config_chain_ancestors (ks : List String) (m m2 : ConfigView)
    (h : configChainSections m ks = some m2) :
    m2.ancestors = m.ancestors ++ ks := by
  induction ks generalizing m with
  | nil =>
    simp only [configChainSections, Option.some.injEq] at h
    subst h
    simp
  | cons k rest ih =>
    cases hd : dictFind m.data k with
    | none => simp [configChainSections, configGetItem, hd] at h
    | some node =>
      cases node with
      | scalar v => simp [configChainSections, configGetItem, hd] at h
      | sect es =>
        simp only [configChainSections, configGetItem, hd] at h
        have hstep := ih (ConfigView.mk es (m.ancestors ++ [k])) h
        simpa [List.append_assoc] using hstep

/-- Claim C8: reading a missing key raises the config-key error whose
message contains the key and the full ancestor chain (each traversed
key name, and the whole chain joined, occur in the message); reading a
key mapped to a nested mapping returns a new view wrapping the
submapping with the chain extended by the key; reading a scalar
returns it directly; and the view reached by traversing any chain of
sections carries exactly the root chain extended by the traversed
keys, so the property holds at every depth. -/
theorem config_getitem_spec (m : ConfigView) (key : String) :
    (dictFind m.data key = none →
      configGetItem m key
        = Except.error (PyExc.configKeyError (missingKeyMsg key m.ancestors)) ∧
      key.data <:+: (missingKeyMsg key m.ancestors).data ∧
      (joinColon m.ancestors).data <:+: (missingKeyMsg key m.ancestors).data ∧
      (∀ a ∈ m.ancestors, a.data <:+: (missingKeyMsg key m.ancestors).data)) ∧
    (∀ v, dictFind m.data key = some (ConfigNode.scalar v) →
      configGetItem m key = Except.ok (ConfigGetResult.value v)) ∧
    (∀ es, dictFind m.data key = some (ConfigNode.sect es) →
      configGetItem m key
        = Except.ok (ConfigGetResult.sub (ConfigView.mk es (m.ancestors ++ [key])))) ∧
    (∀ ks m2, configChainSections m ks = some m2 →
      m2.ancestors = m.ancestors ++ ks) := by
  refine ⟨?_, ?_, ?_, ?_⟩
  · intro h
    refine ⟨by simp [configGetItem, h], key_within_missing_msg key m.ancestors,
      join_within_missing_msg key m.ancestors, ?_⟩
    intro a ha
    exact (within_join_colon m.ancestors a ha).trans (join_within_missing_msg key m.ancestors)
  · intro v h
    simp [configGetItem, h]
  · intro es h
    simp [configGetItem, h]
  · intro ks m2 h
    exact config_chain_ancestors ks m m2 h

/-- Witness for config_getitem_spec: a missing key under the chain
root, sub raises the config-key error and both ancestor names occur in
its message. -/
theorem config_getitem_spec_witness :
    configGetItem (ConfigView.mk [] [("root"), ("sub")]) ("missing")
      = Except.error (PyExc.configKeyError (missingKeyMsg ("missing") [("root"), ("sub")])) ∧
    ("sub").data <:+: (missingKeyMsg ("missing") [("root"), ("sub")]).data := by
  have h := (config_getitem_spec (ConfigView.mk [] [("root"), ("sub")]) ("missing")).1 rfl
  exact ⟨h.1, h.2.2.2 ("sub") (by simp)⟩

theorem fromUniqueAux_append (l1 l2 : List ThemeH) (acc : List (String × ThemeH)) :
    fromUniqueAux (l1 ++ l2) acc = fromUniqueAux l2 (fromUniqueAux l1 acc) := by
  induction l1 generalizing acc with
  | nil => rfl
  | cons t rest ih =>
    simp only [List.cons_append, fromUniqueAux]
    cases h : themeMapAdd acc t with
    | error e => exact ih acc
    | ok acc2 => exact ih acc2

theorem containsName_fromUniqueAux (l : List ThemeH) (acc : List (String × ThemeH))
    (n : String) :
    containsName (fromUniqueAux l acc) n
      = (containsName acc n || l.any (fun x => x.name == n)) := by
  induction l generalizing acc with
  | nil => simp [fromUniqueAux]
  | cons t rest ih =>
    cases hc : containsName acc t.name with
    | true =>
      have hadd : themeMapAdd acc t
          = Except.error (PyExc.duplicateThemeNameError (dupMsg t.name)) := by
        simp [themeMapAdd, hc]
      simp only [fromUniqueAux, hadd]
      rw [ih acc]
      simp only [List.any_cons]
      cases hbe : (t.name == n) with
      | false => simp
      | true =>
        have heq : t.name = n := eq_of_beq hbe
        have hcn : containsName acc n = true := by
          rw [← heq]
          exact hc
        simp [hcn]
    | false =>
      have hadd : themeMapAdd acc t = Except.ok (acc ++ [(t.name, t)]) := by
        simp [themeMapAdd, hc]
      simp only [fromUniqueAux, hadd]
      rw [ih (acc ++ [(t.name, t)])]
      have hap : containsName (acc ++ [(t.name, t)]) n
          = (containsName acc n || (t.name == n)) := by
        simp [containsName, List.any_append]
      rw [hap]
      simp [List.any_cons, Bool.or_assoc]

theorem nodup_disj_step (t : ThemeH) (rest : List ThemeH) (acc : List (String × ThemeH))
    (hnd : (namesOf (t :: rest)).Nodup)
    (hdisj : ∀ x ∈ t :: rest, containsName acc x.name = false) :
    (namesOf rest).Nodup ∧
    (∀ x ∈ rest, containsName (acc ++ [(t.name, t)]) x.name = false) := by
  have hx : (t.name :: namesOf rest).Nodup := by simpa [namesOf] using hnd
  have hnotin : t.name ∉ namesOf rest := (List.nodup_cons.mp hx).1
  refine ⟨(List.nodup_cons.mp hx).2, ?_⟩
  intro x hxr
  have h1 : containsName acc x.name = false := hdisj x (List.mem_cons_of_mem t hxr)
  have h2 : (t.name == x.name) = false := by
    cases hbe : (t.name == x.name) with
    | false => rfl
    | true =>
      exfalso
      apply hnotin
      rw [eq_of_beq hbe]
      simpa [namesOf] using List.mem_map_of_mem (fun th => th.name) hxr
  have h1b : acc.any (fun pr => pr.1 == x.name) = false := h1
  simp [containsName, List.any_append, h1b, h2]

theorem fromUniqueAux_nodup_eq (l : List ThemeH) (acc : List (String × ThemeH))
    (hnd : (namesOf l).Nodup)
    (hdisj : ∀ x ∈ l, containsName acc x.name = false) :
    fromUniqueAux l acc = acc ++ l.map (fun x => (x.name, x)) := by
  induction l generalizing acc with
  | nil => simp [fromUniqueAux]
  | cons t rest ih =>
    have hc : containsName acc t.name = false := hdisj t (List.mem_cons_self t rest)
    have hadd : themeMapAdd acc t = Except.ok (acc ++ [(t.name, t)]) := by
      simp [themeMapAdd, hc]
    obtain ⟨hnd2, hdisj2⟩ := nodup_disj_step t rest acc hnd hdisj
    simp only [fromUniqueAux, hadd]
    rw [ih (acc ++ [(t.name, t)]) hnd2 hdisj2]
    simp [List.append_assoc]

theorem themeMapInitAux_append (l1 l2 : List ThemeH) (acc : List (String × ThemeH)) :
    themeMapInitAux (l1 ++ l2) acc
      = (match themeMapInitAux l1 acc with
         | Except.error e => Except.error e
         | Except.ok acc2 => themeMapInitAux l2 acc2) := by
  induction l1 generalizing acc with
  | nil => rfl
  | cons t rest ih =>
    simp only [List.cons_append, themeMapInitAux]
    cases h : themeMapAdd acc t with
    | error e => simp
    | ok acc2 => exact ih acc2

theorem themeMapInitAux_ok (l : List ThemeH) (acc : List (String × ThemeH))
    (hnd : (namesOf l).Nodup)
    (hdisj : ∀ x ∈ l, containsName acc x.name = false) :
    themeMapInitAux l acc = Except.ok (acc ++ l.map (fun x => (x.name, x))) := by
  induction l generalizing acc with
  | nil => simp [themeMapInitAux]
  | cons t rest ih =>
    have hc : containsName acc t.name = false := hdisj t (List.mem_cons_self t rest)
    have hadd : themeMapAdd acc t = Except.ok (acc ++ [(t.name, t)]) := by
      simp [themeMapAdd, hc]
    obtain ⟨hnd2, hdisj2⟩ := nodup_disj_step t rest acc hnd hdisj
    simp only [themeMapInitAux, hadd]
    rw [ih (acc ++ [(t.name, t)]) hnd2 hdisj2]
    simp [List.append_assoc]

theorem dictFind_map_pair (l : List ThemeH) (n : String) :
    dictFind (l.map (fun x => (x.name, x))) n = l.find? (fun x => x.name == n) := by
  induction l with
  | nil => rfl
  | cons x rest ih =>
    cases hx : (x.name == n) with
    | true => simp [dictFind, List.find?_cons, hx]
    | false => simp [dictFind, List.find?_cons, hx, ih]

theorem find?_head_append (l1 l2 : List ThemeH) (f : ThemeH → Bool)
    (h : l1.any f = true) : (l1 ++ l2).find? f = l1.find? f := by
  induction l1 with
  | nil => simp at h
  | cons x rest ih =>
    cases hx : f x with
    | true => simp [List.find?_cons, hx]
    | false =>
      simp only [List.any_cons, hx, Bool.false_or] at h
      simp [List.find?_cons, hx, ih h]

theorem any_map_pair (l : List ThemeH) (n : String) :
    (l.map (fun x => (x.name, x))).any (fun pr => pr.1 == n)
      = l.any (fun x => x.name == n) := by
  induction l with
  | nil => rfl
  | cons x rest ih => simp only [List.map_cons, List.any_cons, ih]

/-- Claim C6: for a sequence of themes holding exactly one pair
sharing a name (formalized as a decomposition p ++ t :: s where the
name of t already occurs in p and all other names are pairwise
distinct), the bulk constructor from_unique drops the later duplicate
(its result equals the one for p ++ s), yields one entry fewer than
the input length, keeps the first-seen theme under the duplicated
name, and the strict constructor raises the duplicate-name error on
the same input. -/
theorem from_unique_single_duplicate_spec (p s : List ThemeH) (t : ThemeH)
    (hdup : p.any (fun x => x.name == t.name) = true)
    (hnd : (namesOf (p ++ s)).Nodup) :
    fromUnique (p ++ t :: s) = fromUnique (p ++ s) ∧
    (fromUnique (p ++ t :: s)).length = (p ++ t :: s).length - 1 ∧
    dictFind (fromUnique (p ++ t :: s)) t.name = p.find? (fun x => x.name == t.name) ∧
    themeMapInit (p ++ t :: s)
      = Except.error (PyExc.duplicateThemeNameError (dupMsg t.name)) := by
  have hndp : (namesOf p).Nodup := by
    have hx : (namesOf p ++ namesOf s).Nodup := by simpa [namesOf] using hnd
    exact hx.of_append_left
  have hdisj0 : ∀ x ∈ p ++ s, containsName [] x.name = false := fun x hx => rfl
  have hndps : (namesOf (p ++ s)).Nodup := hnd
  have heq1 : fromUnique (p ++ s) = (p ++ s).map (fun x => (x.name, x)) := by
    have hx := fromUniqueAux_nodup_eq (p ++ s) [] hndps hdisj0
    simpa [fromUnique] using hx
  have hcontains : containsName (fromUniqueAux p []) t.name = true := by
    rw [containsName_fromUniqueAux]
    simp [hdup]
  have haddfail : themeMapAdd (fromUniqueAux p []) t
      = Except.error (PyExc.duplicateThemeNameError (dupMsg t.name)) := by
    simp [themeMapAdd, hcontains]
  have hdrop : fromUnique (p ++ t :: s) = fromUnique (p ++ s) := by
    calc fromUnique (p ++ t :: s)
        = fromUniqueAux (t :: s) (fromUniqueAux p []) := by
          simp [fromUnique, fromUniqueAux_append]
      _ = fromUniqueAux s (fromUniqueAux p []) := by
          simp only [fromUniqueAux, haddfail]
      _ = fromUnique (p ++ s) := by
          simp [fromUnique, fromUniqueAux_append]
  refine ⟨hdrop, ?_, ?_, ?_⟩
  · rw [hdrop, heq1]
    simp
  · rw [hdrop, heq1, dictFind_map_pair]
    exact find?_head_append p s (fun x => x.name == t.name) hdup
  · have hokp : themeMapInitAux p [] = Except.ok ([] ++ p.map (fun x => (x.name, x))) :=
      themeMapInitAux_ok p [] hndp (fun x hx => rfl)
    have hcm : containsName (p.map (fun x => (x.name, x))) t.name = true := by
      rw [containsName, any_map_pair]
      exact hdup
    rw [themeMapInit, themeMapInitAux_append p (t :: s) [], hokp]
    simp only [List.nil_append, themeMapInitAux, themeMapAdd, hcm, if_true]

/-- Witness for from_unique_single_duplicate_spec: three themes with
one duplicated name give a two-entry collection from from_unique and a
duplicate-name error from the strict constructor. -/
theorem from_unique_single_duplicate_spec_witness :
    fromUnique ([ThemeH.mk ("a") ("pa"), ThemeH.mk ("b") ("pb")] ++ ThemeH.mk ("a") ("pa2") :: [])
      = fromUnique ([ThemeH.mk ("a") ("pa"), ThemeH.mk ("b") ("pb")] ++ []) ∧
    themeMapInit ([ThemeH.mk ("a") ("pa"), ThemeH.mk ("b") ("pb")] ++ ThemeH.mk ("a") ("pa2") :: [])
      = Except.error (PyExc.duplicateThemeNameError (dupMsg (ThemeH.mk ("a") ("pa2")).name)) := by
  constructor
  · exact (from_unique_single_duplicate_spec [ThemeH.mk ("a") ("pa"), ThemeH.mk ("b") ("pb")]
      [] (ThemeH.mk ("a") ("pa2")) (by decide) (by decide)).1
  · exact (from_unique_single_duplicate_spec [ThemeH.mk ("a") ("pa"), ThemeH.mk ("b") ("pb")]
      [] (ThemeH.mk ("a") ("pa2")) (by decide) (by decide)).2.2.2
